import Mathlib

/-!
A shallow embedding, in Lean 4, of the probe/benchmark core of the
`relay-client` diagnostic suite: the STUN-like message codec and probe
classification of `test-stun-server.py`, and the statistics / phase logic of
`test-speed.py` and `test-relay-speed.py`.  Byte strings are modelled as
`List Nat` (each element a byte value), Python float arithmetic on measured
quantities as exact `ℚ` arithmetic, and the network as an explicit oracle
argument (the datagram the socket would deliver, or the outcome of each
iteration of a loop).
-/

namespace RelayClient

/-- Big-endian 16-bit read, `struct.unpack(">H", data[i:i+2])[0]`.  Out-of-range
reads default to 0; every use in the sources is guarded so the default is never
taken there. -/
def be16 (data : List Nat) (i : Nat) : Nat :=
  data.getD i 0 * 256 + data.getD (i + 1) 0

/-- Big-endian 16-bit write, `struct.pack(">H", v)` (defined for `v < 65536`;
Python raises for larger values). -/
def pack16 (v : Nat) : List Nat :=
  [v / 256, v % 256]

/-- Python slice `data[i:i+k]` (clamping at the end of the list). -/
def slice (data : List Nat) (i k : Nat) : List Nat :=
  (data.drop i).take k

/-- One parsed attribute, the dict `{"type": _, "length": _, "value": _}`
built at `test-stun-server.py` lines 50–54. -/
structure StunAttr where
  typ : Nat
  length : Nat
  value : List Nat
deriving DecidableEq, Repr

/-- The result dict of `parse_stun_response` (`test-stun-server.py` lines
34–38 and 56): header fields, the transaction id as raw bytes (the source
stores `transaction_id.hex()`, an injective rendering of the same bytes), and
the `attributes` key, present only when the attribute block was parsed. -/
structure StunParsed where
  msg_type : Nat
  msg_length : Nat
  transaction_id : List Nat
  attributes : Option (List StunAttr)
deriving DecidableEq, Repr

deriving instance DecidableEq for Except

/-- The attribute loop of `parse_stun_response` (`test-stun-server.py` lines
43–55): starting at `offset`, while `offset < endOff`, stop if fewer than 4
bytes remain in `data`, otherwise read a type/length header, slice the value,
and advance by `4 + attr_length`. -/
def parse_attrs (data : List Nat) (endOff offset : Nat) : List StunAttr :=
  if h : offset < endOff then
    if data.length < offset + 4 then []
    else
      let attr_length := be16 data (offset + 2)
      ⟨be16 data offset, attr_length, slice data (offset + 4) attr_length⟩ ::
        parse_attrs data endOff (offset + 4 + attr_length)
  else []
termination_by endOff - offset
decreasing_by omega

/-- Fuelled variant of the same loop: `none` means the fuel ran out before the
loop exited.  Used to state that the loop terminates within a bound linear in
the declared attribute length (each iteration advances the offset by at least
4 bytes or exits). -/
def parse_attrs_fuel (data : List Nat) (endOff : Nat) :
    Nat → Nat → Option (List StunAttr)
  | 0, _ => none
  | fuel + 1, offset =>
    if offset < endOff then
      if data.length < offset + 4 then some []
      else
        let attr_length := be16 data (offset + 2)
        (parse_attrs_fuel data endOff fuel (offset + 4 + attr_length)).map
          (⟨be16 data offset, attr_length, slice data (offset + 4) attr_length⟩ :: ·)
    else some []

/-- `parse_stun_response` (`test-stun-server.py` lines 24–58).  Returns the
error string `"Response too short"` for inputs under 20 bytes; otherwise reads
the header, takes `data[4:16]` as the transaction id, and parses the attribute
block only when `msg_length > 0` and `len(data) >= 20 + msg_length`. -/
def parse_stun_response (data : List Nat) : Except String StunParsed :=
  if data.length < 20 then .error "Response too short"
  else
    let msg_length := be16 data 2
    { msg_type := be16 data 0
      msg_length := msg_length
      transaction_id := slice data 4 12
      attributes :=
        if 0 < msg_length ∧ 20 + msg_length ≤ data.length then
          some (parse_attrs data (20 + msg_length) 20)
        else none } |> .ok

/-- `create_stun_request` (`test-stun-server.py` lines 13–22), parameterised by
the randomly drawn 12-byte transaction id: a Binding Request header
(`msg_type = 0x0001`, `msg_length = 0x0000`, both packed big-endian) followed
by the transaction id. -/
def create_stun_request (transaction_id : List Nat) : List Nat :=
  pack16 0x0001 ++ pack16 0x0000 ++ transaction_id

/-- Total encoded byte length of an attribute list: 4 header bytes plus the
value bytes for each attribute. -/
def attrBytesLen (attrs : List (Nat × List Nat)) : Nat :=
  (attrs.map (fun a => 4 + a.2.length)).sum

/-- Modelled from the spec: `encodeRequest(messageType, transactionId,
attributes)` of §4.1 — the source holds only the attribute-free instance
`create_stun_request`.  Writes the 4-byte header (`messageType` big-endian,
total attribute byte length big-endian), then the transaction id, then each
attribute as `type(2B) + length(2B) + value`. -/
def encodeRequest (messageType : Nat) (transaction_id : List Nat)
    (attrs : List (Nat × List Nat)) : List Nat :=
  pack16 messageType ++ pack16 (attrBytesLen attrs) ++ transaction_id ++
    attrs.flatMap (fun a => pack16 a.1 ++ pack16 a.2.length ++ a.2)

/-- The MAPPED-ADDRESS extraction of `test_stun_server` (`test-stun-server.py`
lines 110–116), applied to one attribute value: when the value has at least 8
bytes the code reads `family` from bytes 2–3 and `port` from bytes 4–5 (both
as big-endian 16-bit), and when `family == 0x01` takes bytes 6–9 as the IPv4
address; otherwise nothing is extracted. -/
def parse_mapped_address (value : List Nat) : Option (Nat × List Nat) :=
  if 8 ≤ value.length then
    let family := be16 value 2
    let port := be16 value 4
    if family = 0x01 then some (port, slice value 6 4) else none
  else none

/-- The response classification of `test_stun_server` (`test-stun-server.py`
lines 89–121), as a function of the transaction id sent (line 70, in scope
throughout) and of the datagram the socket delivered: a parse error returns
`false`; a parsed message returns `true` exactly when `msg_type == 0x0101`.
The transaction id of the reply is never compared with `transaction_id`. -/
def test_stun_server_outcome (transaction_id : List Nat)
    (response : List Nat) : Bool :=
  match parse_stun_response response with
  | .error _ => false
  | .ok parsed => parsed.msg_type == 0x0101

/-! Benchmark-engine state.  Measured wall-clock quantities are exact `ℚ`
values; the network is an oracle list giving the outcome the socket would
deliver at each iteration. -/

/-- `min(l)` over a Python list (defined, in the sources, only on non-empty
lists; `0` on `[]` is never reached through the guarded call sites). -/
def listMin : List ℚ → ℚ
  | [] => 0
  | x :: xs => xs.foldl min x

/-- `max(l)` over a Python list, same convention as `listMin`. -/
def listMax : List ℚ → ℚ
  | [] => 0
  | x :: xs => xs.foldl max x

/-- `statistics.mean(l)`: the arithmetic mean. -/
def mean (l : List ℚ) : ℚ :=
  l.sum / l.length

/-- The square of `statistics.stdev(l)`: the sample variance
`Σ (x - mean)² / (n - 1)`.  The square is kept because the square root of a
rational is not computable as a rational; theorems about a stored standard
deviation `s` state `0 ≤ s ∧ s² = stdev_sq l` instead. -/
def stdev_sq (l : List ℚ) : ℚ :=
  (l.map (fun x => (x - mean l) ^ 2)).sum / ((l.length : ℚ) - 1)

/-- The latency statistics block shared by `test-speed.py` lines 50–60 and
`test-relay-speed.py` lines 255–265: arithmetic mean, `min`, `max`, and
`statistics.stdev` guarded by `if len(latencies) > 1 else 0`.  The standard
deviation is stored as its square (`std_dev_sq`), see `stdev_sq`. -/
structure LatencyStats where
  average : ℚ
  minimum : ℚ
  maximum : ℚ
  std_dev_sq : ℚ
deriving DecidableEq, Repr

/-- The `if latencies:` guard of `test-relay-speed.py` line 255 followed by
the statistics block: `none` models the `else` branch (no successful
measurements, phase failure), `some` the computed statistics. -/
def latency_stats (latencies : List ℚ) : Option LatencyStats :=
  if latencies.isEmpty then none
  else
    some
      { average := mean latencies
        minimum := listMin latencies
        maximum := listMax latencies
        std_dev_sq := if 1 < latencies.length then stdev_sq latencies else 0 }

/-- `SpeedTest.test_latency` (`test-speed.py` lines 31–76): the whole `for`
loop runs inside a single `try`.  Oracle element `some d` is an exchange that
completed with round-trip `d` ms; `none` is a `socket.timeout` (or any other
exception) raised inside the iteration.  The first `none` propagates out of
the loop to the enclosing `except`, which returns `False`: the result is the
number of iterations actually started, paired with `none` (phase aborted, no
statistics) or `some` of the collected latencies. -/
def speed_test_latency : List (Option ℚ) → Nat × Option (List ℚ)
  | [] => (0, some [])
  | oracle :: rest =>
    match oracle with
    | none => (1, none)
    | some d =>
      let (executed, result) := speed_test_latency rest
      (executed + 1, result.map (d :: ·))

/-- `RelaySpeedTest.test_latency` (`test-relay-speed.py` lines 230–253): each
iteration has its own `try`/`except`/`continue`, so an exception (timeout,
socket-creation failure, …) skips that iteration and the loop continues.
Returns the number of iterations executed and the collected latencies. -/
def relay_test_latency : List (Option ℚ) → Nat × List ℚ
  | [] => (0, [])
  | oracle :: rest =>
    let (executed, latencies) := relay_test_latency rest
    match oracle with
    | none => (executed + 1, latencies)
    | some d => (executed + 1, d :: latencies)

/-- One iteration of the stress loop (`test-speed.py` lines 237–258), as seen
by the environment oracle: the echo arrived and matched, arrived but
differed, the receive timed out after the send (the generic `except` behaves
the same), or the send itself failed before `messages_sent` was
incremented. -/
inductive StressEvent where
  | ok
  | mismatch
  | timeout
  | sendError
deriving DecidableEq, Repr

/-- Counters accumulated by the stress loop. -/
structure StressCounts where
  sent : Nat
  received : Nat
  errors : Nat
deriving DecidableEq, Repr

/-- The stress loop's counter updates: `sendto; messages_sent += 1; recvfrom;
if response == message: messages_received += 1`, with `except` branches
incrementing `errors` and continuing. -/
def stress_counts : List StressEvent → StressCounts
  | [] => ⟨0, 0, 0⟩
  | e :: rest =>
    let c := stress_counts rest
    match e with
    | .ok => ⟨c.sent + 1, c.received + 1, c.errors⟩
    | .mismatch => ⟨c.sent + 1, c.received, c.errors⟩
    | .timeout => ⟨c.sent + 1, c.received, c.errors + 1⟩
    | .sendError => ⟨c.sent, c.received, c.errors + 1⟩

/-- `success_rate = (messages_received / messages_sent * 100) if
messages_sent > 0 else 0` (`test-speed.py` line 263, and the same formula at
`test-speed.py` line 175 and `test-relay-speed.py` line 164). -/
def success_rate (received sent : Nat) : ℚ :=
  if 0 < sent then (received : ℚ) / (sent : ℚ) * 100 else 0

/-- The verdict of `SpeedTest.test_stress` (`test-speed.py` line 282):
`return success_rate > 80`. -/
def test_stress (events : List StressEvent) : Bool :=
  let c := stress_counts events
  decide (80 < success_rate c.received c.sent)

/-- The result dict of `RelaySpeedTest.test_single_throughput`
(`test-relay-speed.py` lines 75–86).  `std_duration_ms_sq` stores the square
of the source's `std_duration * 1000`, see `stdev_sq`. -/
structure ThroughputResult where
  data_size : Nat
  iterations : Nat
  successful_transfers : Nat
  success_rate : ℚ
  avg_duration_ms : ℚ
  min_duration_ms : ℚ
  max_duration_ms : ℚ
  std_duration_ms_sq : ℚ
  throughput_mbps : ℚ
  throughput_roundtrip_mbps : ℚ
deriving DecidableEq, Repr

/-- The summary step of `RelaySpeedTest.test_single_throughput`
(`test-relay-speed.py` lines 58–89), as a function of the collected round-trip
`durations` (seconds) and the `successful_transfers` count: `if durations:`
compute the statistics and throughput figures, `else: return None`. -/
def test_single_throughput (data_size iterations : Nat) (durations : List ℚ)
    (successful_transfers : Nat) : Option ThroughputResult :=
  if durations.isEmpty then none
  else
    let avg := mean durations
    some
      { data_size := data_size
        iterations := iterations
        successful_transfers := successful_transfers
        success_rate := (successful_transfers : ℚ) / (iterations : ℚ) * 100
        avg_duration_ms := avg * 1000
        min_duration_ms := listMin durations * 1000
        max_duration_ms := listMax durations * 1000
        std_duration_ms_sq :=
          (if 1 < durations.length then stdev_sq durations else 0) * 1000000
        throughput_mbps := (data_size * 8 : ℚ) / (avg * 1000000)
        throughput_roundtrip_mbps := (data_size * 8 * 2 : ℚ) / (avg * 1000000) }

/-! Helper lemmas. -/

/-- The serialized attribute block is exactly `attrBytesLen attrs` bytes. -/
theorem encode_attrs_length (attrs : List (Nat × List Nat)) :
    (attrs.flatMap (fun a => pack16 a.1 ++ pack16 a.2.length ++ a.2)).length =
      attrBytesLen attrs := by
  induction attrs with
  | nil => rfl
  | cons a rest ih =>
    rw [List.flatMap_cons, List.length_append, ih]
    simp only [attrBytesLen, List.map_cons, List.sum_cons, List.length_append, pack16,
      List.length_cons, List.length_nil]

/-- One-step unfolding of the fuelled attribute loop at positive fuel. -/
theorem parse_attrs_fuel_succ (data : List Nat) (endOff fuel offset : Nat) :
    parse_attrs_fuel data endOff (fuel + 1) offset =
      if offset < endOff then
        if data.length < offset + 4 then some []
        else
          (parse_attrs_fuel data endOff fuel
              (offset + 4 + be16 data (offset + 2))).map
            (⟨be16 data offset, be16 data (offset + 2),
              slice data (offset + 4) (be16 data (offset + 2))⟩ :: ·)
      else some [] := rfl

/-- The source's fixed Binding Request is the attribute-free instance of the
spec-modelled encoder. -/
theorem create_stun_request_eq_encodeRequest (transaction_id : List Nat) :
    create_stun_request transaction_id = encodeRequest 0x0001 transaction_id [] := by
  simp [create_stun_request, encodeRequest, attrBytesLen]

/-! Theorems settling the claims. -/

/-- C1: `test_stun_server` declares success for a decodable reply of type
`0x0101` whose transaction id differs from the one it sent.  With sent id
A = twelve `0x00` bytes and a crafted 20-byte reply carrying id B = twelve
`0x01` bytes, the classification yields `true` (success) even though the
reply decodes to transaction id B and B ≠ A; the claim (and spec §4.2)
requires the outcome `Mismatch` here. -/
theorem c1_mismatched_transaction_id_accepted :
    test_stun_server_outcome (List.replicate 12 0)
        ([0x01, 0x01, 0x00, 0x00] ++ List.replicate 12 1 ++ [0, 0, 0, 0]) = true ∧
    (parse_stun_response
          ([0x01, 0x01, 0x00, 0x00] ++ List.replicate 12 1 ++ [0, 0, 0, 0])).toOption.map
        StunParsed.transaction_id = some (List.replicate 12 1) ∧
    List.replicate 12 (1 : Nat) ≠ List.replicate 12 0 := by
  refine ⟨by decide, by decide, by decide⟩

/-- C2 (counterexample): a 20-byte input whose header declares 100 bytes of
attributes — far more than the 0 bytes remaining — decodes successfully with
the attributes field absent, instead of failing with a `TruncatedAttribute`
error as the claim requires. -/
theorem c2_overdeclared_length_not_an_error :
    parse_stun_response ([0x01, 0x01, 0x00, 0x64] ++ List.replicate 16 0) =
      .ok ⟨0x0101, 0x64, List.replicate 12 0, none⟩ := by
  decide

/-- C2 (amended): inputs shorter than 20 bytes fail with the
`"Response too short"` (TooShort) error; but when the header declares a
positive attributes length exceeding the bytes remaining after the 20-byte
header, decoding succeeds and returns the message with the attributes field
absent rather than failing with a `TruncatedAttribute` error. -/
theorem c2_truncation_behaviour (data : List Nat) :
    (data.length < 20 → parse_stun_response data = .error "Response too short") ∧
    (20 ≤ data.length → 0 < be16 data 2 → data.length < 20 + be16 data 2 →
      parse_stun_response data =
        .ok ⟨be16 data 0, be16 data 2, slice data 4 12, none⟩) := by
  constructor
  · intro h
    simp [parse_stun_response, h]
  · intro h1 h2 h3
    have hn : ¬ data.length < 20 := by omega
    have hc : ¬ (0 < be16 data 2 ∧ 20 + be16 data 2 ≤ data.length) := by omega
    simp [parse_stun_response, hn, hc]

/-- C2 (witness): the amended statement applied to the empty input and to a
concrete 20-byte input declaring 8 bytes of attributes it does not carry. -/
theorem c2_truncation_behaviour_witness :
    parse_stun_response [] = .error "Response too short" ∧
    parse_stun_response ([0x01, 0x01, 0x00, 0x08] ++ List.replicate 16 5) =
      .ok ⟨0x0101, 8, List.replicate 12 5, none⟩ := by
  constructor
  · exact (c2_truncation_behaviour []).1 (by decide)
  · have h := (c2_truncation_behaviour
      ([0x01, 0x01, 0x00, 0x08] ++ List.replicate 16 5)).2
      (by decide) (by decide) (by decide)
    rw [h]
    decide

/-- C3: on a MAPPED-ADDRESS value laid out as the claim (and RFC) describes —
reserved byte `0x00`, family byte `0x01` at index 1, port `0x1F40 = 8000` at
bytes 2–3, address `192.168.0.1` at bytes 4–7 — the code extracts nothing:
it reads the family as a big-endian 16-bit field from bytes 2–3 (getting
`0x1F40`, not `0x01`), the port from bytes 4–5, and the address from bytes
6–9, so the `family == 0x01` test fails on well-formed data. -/
theorem c3_mapped_address_offsets :
    parse_mapped_address [0x00, 0x01, 0x1F, 0x40, 0xC0, 0xA8, 0x00, 0x01] = none ∧
    be16 [0x00, 0x01, 0x1F, 0x40, 0xC0, 0xA8, 0x00, 0x01] 2 = 0x1F40 ∧
    [0x00, 0x01, 0x1F, 0x40, 0xC0, 0xA8, 0x00, 0x01].getD 1 0 = 0x01 := by
  refine ⟨by decide, by decide, by decide⟩

/-- C4: on the oracle `[timeout, 5ms, 6ms]`, `SpeedTest.test_latency`
executes only the first iteration and aborts the phase with no recorded
samples (the `socket.timeout` escapes the `for` loop to the function-level
`except`), while `RelaySpeedTest.test_latency` — whose loop body has its own
`try`/`except`/`continue` — executes all three iterations and records the
two successful samples.  The claim holds of the relay variant but not of
`SpeedTest.test_latency`, where a per-iteration timeout terminates the
phase. -/
theorem c4_speed_latency_aborts_on_timeout :
    speed_test_latency [none, some 5, some 6] = (1, none) ∧
    relay_test_latency [none, some 5, some 6] = (3, [5, 6]) := by
  refine ⟨by decide, by decide⟩

/-- C5 (counterexample): summarizing an empty duration set in
`RelaySpeedTest.test_single_throughput` returns `None`, not an aggregate
result with `count = 0`. -/
theorem c5_empty_summary_is_none :
    test_single_throughput 64 10 [] 0 = none := by
  decide

/-- C5 (amended): summarizing an empty sample set is defined and never
divides by zero, but the code returns the sentinel `None` in place of the
whole aggregate rather than an aggregate with `count = 0`; the stress
summary's success rate is guarded to `0` when no messages were sent. -/
theorem c5_empty_summary_defined (data_size iterations successful received : Nat) :
    test_single_throughput data_size iterations [] successful = none ∧
    success_rate received 0 = 0 := by
  constructor
  · rfl
  · simp [success_rate]

/-- C5 (witness): the amended statement at a concrete size, iteration count
and counters. -/
theorem c5_empty_summary_defined_witness :
    test_single_throughput 128 5 [] 3 = none ∧ success_rate 9 0 = 0 :=
  c5_empty_summary_defined 128 5 3 9

/-- C6 (counterexample): the round trip fails outright on the message the
source actually builds — the attribute-free Binding Request is 16 bytes,
and the decoder rejects anything under 20 bytes, so
`parse_stun_response(create_stun_request(...))` is a `TooShort` error rather
than a reproduction of the message. -/
theorem c6_attr_free_roundtrip_fails :
    parse_stun_response (create_stun_request (List.replicate 12 0)) =
      .error "Response too short" := by
  decide

/-- C6 (amended): the encoder lays the header out as the claim states —
big-endian message type at offset 0, attribute byte length at offset 2,
transaction id at offsets 4–15 — but decoding its output reproduces only the
`transactionId` and header fields, never the attributes: whenever the
encoded attributes occupy at least 4 bytes the decoder succeeds with the
attributes field absent (it expects the attribute block 4 bytes later than
the encoder writes it, at offset 20 instead of 16), and the attribute-free
16-byte request is rejected as `TooShort`. -/
theorem c6_roundtrip_drops_attributes (t : Nat) (txid : List Nat)
    (attrs : List (Nat × List Nat)) (h12 : txid.length = 12)
    (h4 : 4 ≤ attrBytesLen attrs) (h16 : attrBytesLen attrs < 65536) :
    parse_stun_response (encodeRequest t txid attrs) =
      .ok ⟨t, attrBytesLen attrs, txid, none⟩ ∧
    slice (encodeRequest t txid attrs) 0 2 = pack16 t ∧
    slice (encodeRequest t txid attrs) 2 2 = pack16 (attrBytesLen attrs) ∧
    slice (encodeRequest t txid attrs) 4 12 = txid ∧
    parse_stun_response (encodeRequest t txid []) = .error "Response too short" := by
  have hrest := encode_attrs_length attrs
  have hform : encodeRequest t txid attrs =
      t / 256 :: t % 256 :: attrBytesLen attrs / 256 :: attrBytesLen attrs % 256 ::
        (txid ++ attrs.flatMap (fun a => pack16 a.1 ++ pack16 a.2.length ++ a.2)) := by
    simp [encodeRequest, pack16]
  have hlen : (encodeRequest t txid attrs).length = 16 + attrBytesLen attrs := by
    rw [hform]
    simp only [List.length_cons, List.length_append, hrest, h12]
    omega
  refine ⟨?_, ?_, ?_, ?_, ?_⟩
  · have hn : ¬ (encodeRequest t txid attrs).length < 20 := by omega
    have hb0 : be16 (encodeRequest t txid attrs) 0 = t := by
      rw [hform]
      simp only [be16, List.getD_cons_zero, List.getD_cons_succ]
      omega
    have hb2 : be16 (encodeRequest t txid attrs) 2 = attrBytesLen attrs := by
      rw [hform]
      show (t / 256 :: t % 256 :: attrBytesLen attrs / 256 :: attrBytesLen attrs % 256 ::
        (txid ++ _)).getD 2 0 * 256 + (t / 256 :: t % 256 :: attrBytesLen attrs / 256 ::
        attrBytesLen attrs % 256 :: (txid ++ _)).getD 3 0 = attrBytesLen attrs
      simp only [List.getD_cons_succ, List.getD_cons_zero]
      omega
    have hc : ¬ (0 < be16 (encodeRequest t txid attrs) 2 ∧
        20 + be16 (encodeRequest t txid attrs) 2 ≤ (encodeRequest t txid attrs).length) := by
      rw [hb2]
      omega
    have htx : slice (encodeRequest t txid attrs) 4 12 = txid := by
      rw [hform]
      simp [slice, List.take_left' h12]
    simp [parse_stun_response, hn, hc, hb0, hb2, htx]
    omega
  · rw [hform]
    simp [slice, pack16]
  · rw [hform]
    simp [slice, pack16]
  · rw [hform]
    simp [slice, List.take_left' h12]
  · have hlen0 : (encodeRequest t txid []).length = 16 := by
      simp [encodeRequest, pack16, attrBytesLen, h12]
    have h20 : (encodeRequest t txid []).length < 20 := by omega
    simp [parse_stun_response, h20]

/-- C6 (witness): the amended statement at message type `0x0101`, an
all-zero transaction id, and a single 4-byte attribute. -/
theorem c6_roundtrip_drops_attributes_witness :
    parse_stun_response (encodeRequest 0x0101 (List.replicate 12 0) [(1, [9, 9, 9, 9])]) =
      .ok ⟨0x0101, attrBytesLen [(1, [9, 9, 9, 9])], List.replicate 12 0, none⟩ ∧
    slice (encodeRequest 0x0101 (List.replicate 12 0) [(1, [9, 9, 9, 9])]) 0 2 =
      pack16 0x0101 ∧
    slice (encodeRequest 0x0101 (List.replicate 12 0) [(1, [9, 9, 9, 9])]) 2 2 =
      pack16 (attrBytesLen [(1, [9, 9, 9, 9])]) ∧
    slice (encodeRequest 0x0101 (List.replicate 12 0) [(1, [9, 9, 9, 9])]) 4 12 =
      List.replicate 12 0 ∧
    parse_stun_response (encodeRequest 0x0101 (List.replicate 12 0) []) =
      .error "Response too short" :=
  c6_roundtrip_drops_attributes 0x0101 (List.replicate 12 0) [(1, [9, 9, 9, 9])]
    (by decide) (by decide) (by decide)

/-- C7: the stress phase declares success exactly when the success rate —
`received / sent × 100`, and `0` when nothing was sent — strictly exceeds
the fixed 80-percent threshold; equivalently, some message was sent and
`100 × received > 80 × sent`. -/
theorem c7_stress_threshold (events : List StressEvent) :
    test_stress events = true ↔
      0 < (stress_counts events).sent ∧
        80 * (stress_counts events).sent < 100 * (stress_counts events).received := by
  simp only [test_stress, success_rate, decide_eq_true_eq]
  by_cases hs : 0 < (stress_counts events).sent
  · have hsQ : (0 : ℚ) < ((stress_counts events).sent : ℚ) := by exact_mod_cast hs
    rw [if_pos hs, div_mul_eq_mul_div, lt_div_iff₀ hsQ]
    constructor
    · intro h
      refine ⟨hs, ?_⟩
      have h2 : ((80 * (stress_counts events).sent : ℕ) : ℚ) <
          ((100 * (stress_counts events).received : ℕ) : ℚ) := by
        push_cast
        linarith
      exact_mod_cast h2
    · rintro ⟨-, h⟩
      have h2 : ((80 * (stress_counts events).sent : ℕ) : ℚ) <
          ((100 * (stress_counts events).received : ℕ) : ℚ) := by exact_mod_cast h
      push_cast at h2
      linarith
  · rw [if_neg hs]
    constructor
    · intro h
      norm_num at h
    · rintro ⟨h, -⟩
      exact absurd h hs

/-- C7 (witness): the threshold equivalence at a concrete run of six
exchanges, five echoed intact — an 83% success rate, above threshold. -/
theorem c7_stress_threshold_witness :
    test_stress [.ok, .ok, .ok, .ok, .ok, .mismatch] = true ↔
      0 < (stress_counts [.ok, .ok, .ok, .ok, .ok, .mismatch]).sent ∧
        80 * (stress_counts [.ok, .ok, .ok, .ok, .ok, .mismatch]).sent <
          100 * (stress_counts [.ok, .ok, .ok, .ok, .ok, .mismatch]).received :=
  c7_stress_threshold [.ok, .ok, .ok, .ok, .ok, .mismatch]

/-- C8: the latency summary of the sample set `{10ms, 20ms, 30ms}` is mean
20, min 10, max 30, and sample (n−1) standard deviation 10 (its square, the
stored `std_dev_sq`, is 100, and 10 is the unique nonnegative real whose
square is 100); with a single sample the standard deviation is defined as
0 by the `len > 1` guard. -/
theorem c8_statistics (x : ℚ) (s : ℝ) :
    latency_stats [10, 20, 30] = some ⟨20, 10, 30, 100⟩ ∧
    (0 ≤ s ∧ s ^ 2 = 100 ↔ s = 10) ∧
    latency_stats [x] = some ⟨x, x, x, 0⟩ := by
  refine ⟨by norm_num [latency_stats, mean, listMin, listMax, stdev_sq, min_def, max_def], ?_, ?_⟩
  · constructor
    · rintro ⟨h0, h2⟩
      have hfac : (s - 10) * (s + 10) = 0 := by
        have hexp : (s - 10) * (s + 10) = s ^ 2 - 100 := by ring
        rw [hexp, h2]
        ring
      rcases mul_eq_zero.mp hfac with h | h
      · linarith
      · linarith
    · rintro rfl
      norm_num
  · simp [latency_stats, mean, listMin, listMax]

/-- C8 (witness): the statistics statement at the single sample `7` and the
candidate standard deviation `10`. -/
theorem c8_statistics_witness :
    latency_stats [10, 20, 30] = some ⟨20, 10, 30, 100⟩ ∧
    ((0 : ℝ) ≤ 10 ∧ (10 : ℝ) ^ 2 = 100 ↔ (10 : ℝ) = 10) ∧
    latency_stats [7] = some ⟨7, 7, 7, 0⟩ :=
  c8_statistics 7 10

/-- C9: every input of at least 20 bytes decodes successfully — the only
error branch of `parse_stun_response` is the under-20 length check — and
when the declared attributes length exceeds the remaining bytes the returned
message simply lacks the attributes field. -/
theorem c9_long_inputs_always_decode (data : List Nat) (h : 20 ≤ data.length) :
    ∃ r, parse_stun_response data = .ok r ∧
      (data.length < 20 + be16 data 2 → r.attributes = none) := by
  have hn : ¬ data.length < 20 := by omega
  by_cases hc : 0 < be16 data 2 ∧ 20 + be16 data 2 ≤ data.length
  · obtain ⟨hc1, hc2⟩ := hc
    refine ⟨⟨be16 data 0, be16 data 2, slice data 4 12,
        some (parse_attrs data (20 + be16 data 2) 20)⟩, ?_, ?_⟩
    · simp [parse_stun_response, hn, hc1, hc2]
    · intro hlt
      omega
  · refine ⟨⟨be16 data 0, be16 data 2, slice data 4 12, none⟩, ?_, ?_⟩
    · simp [parse_stun_response, hn, hc]
    · intro _
      rfl

/-- C9 (witness): the theorem applied to a concrete 20-byte input declaring
64 bytes of attributes it does not carry. -/
theorem c9_long_inputs_always_decode_witness :
    ∃ r, parse_stun_response ([0x00, 0x01, 0x00, 0x40] ++ List.replicate 16 9) = .ok r ∧
      (([0x00, 0x01, 0x00, 0x40] ++ List.replicate 16 9).length <
          20 + be16 ([0x00, 0x01, 0x00, 0x40] ++ List.replicate 16 9) 2 →
        r.attributes = none) :=
  c9_long_inputs_always_decode ([0x00, 0x01, 0x00, 0x40] ++ List.replicate 16 9)
    (by decide)

/-- C10: the attribute loop terminates on every input: each iteration either
advances the offset by at least 4 bytes (the 4-byte attribute header plus a
non-negative value length) or exits via a bounds check, so any fuel budget
covering the declared span four bytes per step — `endOff ≤ offset + 4 × fuel`
— is enough for the fuelled loop to return, and it returns exactly the
loop's result. -/
theorem c10_attr_loop_terminates (data : List Nat) (endOff offset fuel : Nat)
    (h : endOff ≤ offset + 4 * fuel) :
    parse_attrs_fuel data endOff (fuel + 1) offset =
      some (parse_attrs data endOff offset) := by
  induction fuel generalizing offset with
  | zero =>
    have hge : ¬ offset < endOff := by omega
    rw [parse_attrs_fuel_succ, if_neg hge, parse_attrs, dif_neg hge]
  | succ n ih =>
    by_cases hlt : offset < endOff
    · by_cases hlen : data.length < offset + 4
      · rw [parse_attrs_fuel_succ, if_pos hlt, if_pos hlen]
        conv_rhs => rw [parse_attrs]
        rw [dif_pos hlt, if_pos hlen]
      · have hrec := ih (offset + 4 + be16 data (offset + 2)) (by omega)
        rw [parse_attrs_fuel_succ, if_pos hlt, if_neg hlen, hrec]
        conv_rhs => rw [parse_attrs]
        rw [dif_pos hlt, if_neg hlen]
        rfl
    · rw [parse_attrs_fuel_succ, if_neg hlt]
      conv_rhs => rw [parse_attrs]
      rw [dif_neg hlt]

/-- C10 (witness): the theorem at a concrete 28-byte message whose 8-byte
attribute block is traversed within the fuel bound `28 ≤ 20 + 4 × 2`. -/
theorem c10_attr_loop_terminates_witness :
    parse_attrs_fuel ([0x01, 0x01, 0x00, 0x08] ++ List.replicate 12 0 ++ [0, 0, 0, 0] ++
        [0, 1, 0, 4, 7, 7, 7, 7]) 28 3 20 =
      some (parse_attrs ([0x01, 0x01, 0x00, 0x08] ++ List.replicate 12 0 ++ [0, 0, 0, 0] ++
        [0, 1, 0, 4, 7, 7, 7, 7]) 28 20) :=
  c10_attr_loop_terminates _ 28 20 2 (by decide)

end RelayClient
